import Mathlib

/-!
Shallow embedding of the authentication token lifecycle implemented in
src/services/authService.ts (together with the storage-key constants of
src/config/config.ts).

The embedded code is single-threaded and event-loop driven: every await is a
suspension point, and the module-level variables isRefreshing and failedQueue
are mutated only from the 401-handling path. The embedding therefore models

  * AsyncStorage as a total map from string keys to optionally present values,
  * the request interceptor (lines 39-51) as a pure function on request
    configurations,
  * the synchronous prefix of the response interceptor's error handler
    (lines 58-73 and 94) as a step function on the interceptor state, and
  * the refresh branch (lines 75-92) as a function of the interceptor state and
    of how the body of its try block settles, returning the successor state
    together with everything observable: how queued waiters are notified, which
    requests are re-issued, and what the interceptor returns.
-/

namespace AuthService

/-- Error values carried by rejected promises (the identity of an error object,
so that propagating an error unchanged is expressible). -/
abbrev Err := String

/-- AsyncStorage contents: a total map from keys to optionally present values. -/
def Store := String → Option String

/-- Config.STORAGE_KEYS.ACCESS_TOKEN (src/config/config.ts). -/
def ACCESS_TOKEN : String := "access_token"

/-- Config.STORAGE_KEYS.REFRESH_TOKEN (src/config/config.ts). -/
def REFRESH_TOKEN : String := "refresh_token"

/-- Config.STORAGE_KEYS.USER_EMAIL (src/config/config.ts). -/
def USER_EMAIL : String := "userEmail"

/-- Config.STORAGE_KEYS.REMEMBER_ME (src/config/config.ts). -/
def REMEMBER_ME : String := "rememberMe"

/-- AsyncStorage.setItem. -/
def setItem (s : Store) (k v : String) : Store :=
  fun q => if q = k then some v else s q

/-- AsyncStorage.multiSet: writes the key-value pairs left to right. -/
def multiSet (s : Store) (kvs : List (String × String)) : Store :=
  kvs.foldl (fun acc kv => setItem acc kv.1 kv.2) s

/-- AsyncStorage.removeItem. -/
def removeItem (s : Store) (k : String) : Store :=
  fun q => if q = k then none else s q

/-- AsyncStorage.multiRemove: removes the keys left to right. -/
def multiRemove (s : Store) (ks : List String) : Store :=
  ks.foldl removeItem s

/-- A JavaScript headers object: a string-keyed dictionary. -/
def Headers := String → Option String

/-- The empty headers object created by the request interceptor when
config.headers is nullish (line 43). -/
def emptyHeaders : Headers := fun _ => none

/-- Property assignment on a headers object: sets or overwrites one key. -/
def setHeader (hs : Headers) (k v : String) : Headers :=
  fun q => if q = k then some v else hs q

/-- The parts of an AxiosRequestConfig that authService.ts reads or writes: the
url, the headers object (absent when the caller supplied none), and the
one-shot marker written as originalRequest._retry in the source. -/
structure ReqConfig where
  url : String
  headers : Option Headers
  retryFlag : Bool

/-- The parts of an AxiosError the response interceptor inspects:
error.response?.status (none when no response arrived, e.g. a timeout or
network failure) plus a message tag identifying the error object. -/
structure AxiosErrorData where
  status : Option Nat
  message : String

/-- The module-level mutable state of authService.ts: isRefreshing (line 17),
failedQueue (line 18, each waiter captures its original request config in its
closure), the AsyncStorage contents, and the cached default header written at
line 83 as api.defaults.headers.common.Authorization. -/
structure InterceptorState where
  isRefreshing : Bool
  failedQueue : List ReqConfig
  store : Store
  defaultAuth : Option String

/-- Request interceptor (lines 39-51): reads the access token from AsyncStorage
at call time, replaces a nullish headers object with an empty one, and
overwrites the Authorization header with the bearer token under the guard
written as if (token) at line 44 — JavaScript truthiness, under which both a
null result (key absent) and the empty string are falsy and leave the headers
object as it was. -/
def requestInterceptor (store : Store) (cfg : ReqConfig) : ReqConfig :=
  let hs := cfg.headers.getD emptyHeaders
  match store ACCESS_TOKEN with
  | some token =>
      if token = "" then { cfg with headers := some hs }
      else
        { cfg with headers := some (setHeader hs "Authorization" ("Bearer " ++ token)) }
  | none => { cfg with headers := some hs }

/-- What the response interceptor's error handler does, synchronously, with one
incoming error before reaching any await. -/
inductive HandlerResult where
  /-- Line 94: return Promise.reject(error), the error object unchanged. -/
  | rejectWith (err : AxiosErrorData)
  /-- Lines 61-63: a refresh is already in flight, so a pending waiter is
  pushed onto failedQueue and no further action is taken now. -/
  | queued
  /-- Lines 72-73: the one-shot marker is set, isRefreshing is set, and the
  refresh branch is entered with this original request. -/
  | refreshStarted (original : ReqConfig)

/-- Whether a handler step initiated a refresh. -/
def HandlerResult.isStart : HandlerResult → Bool
  | .refreshStarted _ => true
  | _ => false

/-- Synchronous prefix of the response interceptor's error handler
(lines 58-73 and 94). The guard at line 60 requires a 401 status and an unset
one-shot marker; otherwise the error is rejected unchanged. Under the guard,
an in-flight refresh turns the request into a queued waiter, and an idle flag
starts the refresh. -/
def responseErrorHandler (st : InterceptorState) (err : AxiosErrorData)
    (cfg : ReqConfig) : InterceptorState × HandlerResult :=
  if err.status = some 401 ∧ cfg.retryFlag = false then
    if st.isRefreshing then
      ({ st with failedQueue := st.failedQueue ++ [cfg] }, .queued)
    else
      ({ st with isRefreshing := true },
       .refreshStarted { cfg with retryFlag := true })
  else
    (st, .rejectWith err)

/-- Continuation of a queued waiter once its promise resolves with a token
(lines 64-68): the new bearer token is written into the original request's
headers only when a headers object is present, and the request is then
re-issued through bare axios (no request interceptor runs on it). -/
def retryWithToken (token : String) (req : ReqConfig) : ReqConfig :=
  match req.headers with
  | some hs =>
      { req with headers := some (setHeader hs "Authorization" ("Bearer " ++ token)) }
  | none => req

/-- How the body of the try block of the refresh branch (lines 76-85)
settles. -/
inductive RefreshOutcome where
  /-- AsyncStorage.getItem at line 76 throws. -/
  | storageReadThrow (e : Err)
  /-- The POST to the refresh endpoint at line 77 rejects. -/
  | httpFailure (e : Err)
  /-- AsyncStorage.multiSet at line 79 throws. -/
  | storageWriteThrow (e : Err)
  /-- The POST to the refresh endpoint resolves with new tokens. -/
  | success (accessTok refreshTok : String)

/-- Everything observable about one run of the refresh branch. -/
structure RefreshResult where
  /-- The interceptor state after the branch (finally included). -/
  state : InterceptorState
  /-- The single outcome processQueue (lines 20-26) hands to every drained
  waiter: a rejection with the error, or a resolution with the token. -/
  queueOutcome : Except Err String
  /-- The waiters drained from failedQueue, in FIFO order. -/
  drained : List ReqConfig
  /-- The requests that resolved waiters re-issue (rejected waiters re-issue
  nothing: the rejection skips their then-continuation). -/
  queueRetried : List ReqConfig
  /-- Whether api(originalRequest) is re-issued at line 85. -/
  originalRetried : Bool
  /-- The promise the interceptor returns for the original request. -/
  returned : Except Err Unit

/-- The catch block (lines 86-89) followed by the finally block (line 91):
every queued waiter is rejected with the error, both token keys are removed,
the error is re-rejected to the original caller, and isRefreshing is reset. -/
def refreshCatch (st : InterceptorState) (e : Err) : RefreshResult :=
  { state :=
      { isRefreshing := false
        failedQueue := []
        store := multiRemove st.store [ACCESS_TOKEN, REFRESH_TOKEN]
        defaultAuth := st.defaultAuth }
    queueOutcome := .error e
    drained := st.failedQueue
    queueRetried := []
    originalRetried := false
    returned := .error e }

/-- The refresh branch (lines 75-92), entered with isRefreshing already set.
Any throw inside the try block (storage read, the refresh call itself, or the
storage write) lands in the same catch block; on success the new tokens are
persisted, the default header cache is updated, every waiter is resolved with
the new access token (and re-issues its request), and api(originalRequest) is
re-issued. The finally block resets isRefreshing on every path. -/
def runRefreshBranch (st : InterceptorState) (outcome : RefreshOutcome) :
    RefreshResult :=
  match outcome with
  | .storageReadThrow e => refreshCatch st e
  | .httpFailure e => refreshCatch st e
  | .storageWriteThrow e => refreshCatch st e
  | .success a r =>
      { state :=
          { isRefreshing := false
            failedQueue := []
            store := multiSet st.store [(ACCESS_TOKEN, a), (REFRESH_TOKEN, r)]
            defaultAuth := some ("Bearer " ++ a) }
        queueOutcome := .ok a
        drained := st.failedQueue
        queueRetried := st.failedQueue.map (retryWithToken a)
        originalRetried := true
        returned := .ok () }

/-- The error object axios hands the interceptor for an HTTP 401 response. -/
def err401 : AxiosErrorData :=
  { status := some 401, message := "Request failed with status code 401" }

/-- One logically-concurrent 401 arrival: the handler step, also counting
whether this arrival initiated a refresh. -/
def arrival401Step (acc : InterceptorState × Nat) (cfg : ReqConfig) :
    InterceptorState × Nat :=
  let stepRes := responseErrorHandler acc.1 err401 cfg
  (stepRes.1, acc.2 + (if stepRes.2.isStart then 1 else 0))

/-- A sequence of logically-concurrent requests that each receive a 401,
processed in arrival order by the single-threaded event loop, with no refresh
settlement interleaved. Returns the final interceptor state and the number of
refresh initiations. -/
def processConcurrent401s (st : InterceptorState) (reqs : List ReqConfig) :
    InterceptorState × Nat :=
  reqs.foldl arrival401Step (st, 0)

/-- LoginDto (lines 101-104). -/
structure LoginDto where
  email : String
  password : String

/-- UserProfile (lines 131-138). -/
structure UserProfile where
  id : String
  email : String
  first_name : String
  last_name : String
  full_name : String
  roles : List String

/-- AuthResponse (lines 140-145). -/
structure AuthResponse where
  access_token : String
  refresh_token : String
  jti : String
  user : UserProfile

/-- authService.login (lines 154-162), given the AuthResponse payload with
which the POST to the login endpoint resolved: persists both tokens with one
multiSet call and returns the full payload to the caller. -/
def login (store : Store) (_data : LoginDto) (resp : AuthResponse) :
    Store × AuthResponse :=
  (multiSet store [(ACCESS_TOKEN, resp.access_token),
                   (REFRESH_TOKEN, resp.refresh_token)],
   resp)

/-- How the best-effort POST to the logout endpoint settles. -/
inductive TransportOutcome where
  /-- The backend acknowledged the logout request. -/
  | ok
  /-- The request failed: server unreachable, timeout, or any transport
  error. -/
  | fail (e : Err)

/-- Everything observable about one run of authService.logout. -/
structure LogoutResult where
  /-- The AsyncStorage contents afterwards. -/
  store : Store
  /-- The rejection of the returned promise, none when it resolves. -/
  rejected : Option Err
  /-- The Authorization header value sent with the logout request. -/
  postedAuth : String

/-- A JavaScript template literal interpolation of a possibly-null string. -/
def jsTemplate : Option String → String
  | some t => t
  | none => "null"

/-- authService.logout (lines 217-227): reads the access token, posts to the
logout endpoint with a bearer header built from it, swallows any transport
failure with an empty catch, then unconditionally removes both token keys.
The returned promise resolves on every transport outcome. -/
def logout (store : Store) (tr : TransportOutcome) : LogoutResult :=
  let token := store ACCESS_TOKEN
  let cleared := multiRemove store [ACCESS_TOKEN, REFRESH_TOKEN]
  match tr with
  | .ok =>
      { store := cleared, rejected := none
        postedAuth := "Bearer " ++ jsTemplate token }
  | .fail _ =>
      { store := cleared, rejected := none
        postedAuth := "Bearer " ++ jsTemplate token }

/-- The two token keys are distinct strings. -/
theorem access_ne_refresh : ACCESS_TOKEN ≠ REFRESH_TOKEN := by decide

/-- Reading a key back from a two-key multiRemove. -/
theorem multiRemove_tokens (s : Store) :
    multiRemove s [ACCESS_TOKEN, REFRESH_TOKEN] ACCESS_TOKEN = none ∧
    multiRemove s [ACCESS_TOKEN, REFRESH_TOKEN] REFRESH_TOKEN = none := by
  constructor <;> simp [multiRemove, removeItem, ACCESS_TOKEN, REFRESH_TOKEN]

/-- Claim C2: if the refresh call fails, afterwards both token keys are absent
from the store, every queued waiter is rejected with that same error, none of
them is retried, the failure is propagated as a rejection to the original
caller, and the refresh is not retried (the branch returns the rejection). -/
theorem refresh_failure_clears_and_rejects (st : InterceptorState) (e : Err) :
    (runRefreshBranch st (.httpFailure e)).state.store ACCESS_TOKEN = none ∧
    (runRefreshBranch st (.httpFailure e)).state.store REFRESH_TOKEN = none ∧
    (runRefreshBranch st (.httpFailure e)).queueOutcome = .error e ∧
    (runRefreshBranch st (.httpFailure e)).drained = st.failedQueue ∧
    (runRefreshBranch st (.httpFailure e)).queueRetried = [] ∧
    (runRefreshBranch st (.httpFailure e)).returned = .error e := by
  refine ⟨(multiRemove_tokens st.store).1, (multiRemove_tokens st.store).2,
    rfl, rfl, rfl, rfl⟩

/-- Claim C3: if the refresh call succeeds with new tokens, afterwards the
store holds exactly the new access token under the access-token key and the
new refresh token under the refresh-token key, whatever it held before; every
queued waiter is resolved with the new access token and re-issues its request;
the original request is retried; and the refresh flag is back to idle. -/
theorem refresh_success_persists_and_retries (st : InterceptorState)
    (a r : String) :
    (runRefreshBranch st (.success a r)).state.store ACCESS_TOKEN = some a ∧
    (runRefreshBranch st (.success a r)).state.store REFRESH_TOKEN = some r ∧
    (runRefreshBranch st (.success a r)).queueOutcome = .ok a ∧
    (runRefreshBranch st (.success a r)).drained = st.failedQueue ∧
    (runRefreshBranch st (.success a r)).queueRetried
      = st.failedQueue.map (retryWithToken a) ∧
    (runRefreshBranch st (.success a r)).originalRetried = true ∧
    (runRefreshBranch st (.success a r)).state.isRefreshing = false := by
  refine ⟨?_, ?_, rfl, rfl, rfl, rfl, rfl⟩ <;>
    simp [runRefreshBranch, multiSet, setItem, ACCESS_TOKEN, REFRESH_TOKEN]

/-- Claim C4: whenever the refresh branch settles, whether the refresh call
succeeds, rejects, or a storage read or write inside the try block throws, the
finally block resets the refresh flag: the branch never returns with the state
still in REFRESHING. -/
theorem refresh_always_resets_flag (st : InterceptorState)
    (outcome : RefreshOutcome) :
    (runRefreshBranch st outcome).state.isRefreshing = false := by
  cases outcome <;> rfl

/-- Claim C5: an error whose status is not 401 is propagated unchanged: the
handler returns a rejection carrying the same error object, no retry and no
refresh happen, and the interceptor state, the stored tokens and the refresh
flag included, is untouched. -/
theorem non401_passthrough (st : InterceptorState) (err : AxiosErrorData)
    (cfg : ReqConfig) (h : err.status ≠ some 401) :
    responseErrorHandler st err cfg = (st, .rejectWith err) := by
  simp [responseErrorHandler, h]

/-- The hypothesis of non401_passthrough holds at a concrete non-401 error
(HTTP 500), and the handler indeed rejects it unchanged leaving the state
alone. -/
theorem non401_passthrough_witness :
    (some 500 ≠ some 401) ∧
    responseErrorHandler
      { isRefreshing := false, failedQueue := [], store := fun _ => none,
        defaultAuth := none }
      { status := some 500, message := "Internal Server Error" }
      { url := "/me", headers := none, retryFlag := false }
      = ({ isRefreshing := false, failedQueue := [], store := fun _ => none,
           defaultAuth := none },
         .rejectWith { status := some 500, message := "Internal Server Error" }) :=
  ⟨by decide, non401_passthrough _ _ _ (by decide)⟩

/-- Claim C6: logout removes both token keys from the store and its promise
resolves, on every transport outcome, the backend call failing included. -/
theorem logout_clears_tokens_never_rejects (store : Store)
    (tr : TransportOutcome) :
    (logout store tr).store ACCESS_TOKEN = none ∧
    (logout store tr).store REFRESH_TOKEN = none ∧
    (logout store tr).rejected = none := by
  cases tr <;>
    exact ⟨(multiRemove_tokens store).1, (multiRemove_tokens store).2, rfl⟩

/-- Counterexample to claim C7 as stated: the store holds a token, the empty
string, yet the interceptor does not set the Authorization header to its
bearer form — the guard at line 44 is JavaScript truthiness, so the write is
skipped and the stale header value the config already carried survives, and
that value differs from the bearer form of the stored token. -/
theorem request_interceptor_empty_token_counterexample :
    ((fun k => if k = "access_token" then some "" else none) : Store)
      ACCESS_TOKEN = some "" ∧
    ((requestInterceptor
        (fun k => if k = "access_token" then some "" else none)
        { url := "/wallet", retryFlag := false
          headers := some (setHeader emptyHeaders "Authorization" "Bearer stale") }).headers.getD
        emptyHeaders) "Authorization" = some "Bearer stale" ∧
    some "Bearer stale" ≠ some ("Bearer " ++ "") := by
  refine ⟨rfl, ?_, by decide⟩
  simp [requestInterceptor, ACCESS_TOKEN, emptyHeaders, setHeader]

/-- Claim C7 amended: for every outgoing request, whenever the store holds a
non-empty access token at the time the request is issued, the interceptor sets
the Authorization header to the bearer form of exactly that stored value,
overwriting whatever header value the config carried before (so a cached or
default value never survives when a non-empty token is stored), uniformly for
every url, and the url is forwarded unchanged. -/
theorem request_interceptor_attaches_nonempty_stored_token (store : Store)
    (cfg : ReqConfig) (t : String) (h : store ACCESS_TOKEN = some t)
    (hne : t ≠ "") :
    ((requestInterceptor store cfg).headers.getD emptyHeaders) "Authorization"
      = some ("Bearer " ++ t) ∧
    (requestInterceptor store cfg).url = cfg.url := by
  simp [requestInterceptor, h, hne, setHeader]

/-- The hypotheses of request_interceptor_attaches_nonempty_stored_token hold
at a concrete store holding a non-empty token, against a config that already
carries a stale Authorization header: the stored token wins. -/
theorem request_interceptor_attaches_nonempty_stored_token_witness :
    ((fun k => if k = "access_token" then some "tokNew" else none) : Store)
      ACCESS_TOKEN = some "tokNew" ∧
    ("tokNew" ≠ "") ∧
    ((requestInterceptor
        (fun k => if k = "access_token" then some "tokNew" else none)
        { url := "/wallet", retryFlag := false
          headers := some (setHeader emptyHeaders "Authorization" "Bearer stale") }).headers.getD
        emptyHeaders) "Authorization" = some ("Bearer " ++ "tokNew") ∧
    (requestInterceptor
        (fun k => if k = "access_token" then some "tokNew" else none)
        { url := "/wallet", retryFlag := false
          headers := some (setHeader emptyHeaders "Authorization" "Bearer stale") }).url
      = "/wallet" :=
  ⟨rfl, by decide,
   (request_interceptor_attaches_nonempty_stored_token _ _ "tokNew" rfl
      (by decide)).1,
   (request_interceptor_attaches_nonempty_stored_token _ _ "tokNew" rfl
      (by decide)).2⟩

/-- Claim C8: a successful login persists both tokens of the response payload
to the store and returns the full payload, so reading the access-token key
immediately afterwards yields exactly the access token of the payload (and
likewise for the refresh token). -/
theorem login_roundtrip (store : Store) (data : LoginDto)
    (resp : AuthResponse) :
    (login store data resp).1 ACCESS_TOKEN = some resp.access_token ∧
    (login store data resp).1 REFRESH_TOKEN = some resp.refresh_token ∧
    (login store data resp).2 = resp := by
  refine ⟨?_, ?_, rfl⟩ <;>
    simp [login, multiSet, setItem, ACCESS_TOKEN, REFRESH_TOKEN]

/-- Claim C9: when a queued waiter's original request config has no headers
object, the request is re-issued exactly as it was, with no Authorization
header attached; the new bearer token is written into the config only when a
headers object is already present. -/
theorem queued_retry_writes_header_only_if_present (t : String)
    (req : ReqConfig) :
    (req.headers = none → retryWithToken t req = req) ∧
    (∀ hs, req.headers = some hs →
      ((retryWithToken t req).headers.getD emptyHeaders) "Authorization"
        = some ("Bearer " ++ t)) := by
  constructor
  · intro h
    simp [retryWithToken, h]
  · intro hs h
    simp [retryWithToken, h, setHeader]

/-- The hypotheses of queued_retry_writes_header_only_if_present hold at
concrete configs: a header-less config is re-issued untouched, and a config
with a headers object receives the new bearer token. -/
theorem queued_retry_writes_header_only_if_present_witness :
    retryWithToken "newTok" { url := "/me", headers := none, retryFlag := true }
      = { url := "/me", headers := none, retryFlag := true } ∧
    ((retryWithToken "newTok"
        { url := "/me", headers := some emptyHeaders,
          retryFlag := true }).headers.getD emptyHeaders) "Authorization"
      = some ("Bearer " ++ "newTok") :=
  ⟨(queued_retry_writes_header_only_if_present "newTok" _).1 rfl,
   (queued_retry_writes_header_only_if_present "newTok" _).2 emptyHeaders rfl⟩

/-- Claim C10: logout removes only the two token keys: every other key of the
store, the remembered-email key and the remember-me flag in particular, reads
back unchanged afterwards, on every transport outcome. -/
theorem logout_frame (store : Store) (tr : TransportOutcome) (k : String)
    (h1 : k ≠ ACCESS_TOKEN) (h2 : k ≠ REFRESH_TOKEN) :
    (logout store tr).store k = store k := by
  cases tr <;> simp [logout, multiRemove, removeItem, h1, h2]

/-- The hypotheses of logout_frame hold at the remembered-email and
remember-me keys, which therefore survive a logout whose backend call
failed. -/
theorem logout_frame_witness :
    (USER_EMAIL ≠ ACCESS_TOKEN) ∧ (USER_EMAIL ≠ REFRESH_TOKEN) ∧
    (REMEMBER_ME ≠ ACCESS_TOKEN) ∧ (REMEMBER_ME ≠ REFRESH_TOKEN) ∧
    (logout (fun k => if k = "userEmail" then some "a@b.com" else none)
        (.fail "Network Error")).store USER_EMAIL
      = (fun k => if k = "userEmail" then some "a@b.com" else none : Store)
          USER_EMAIL ∧
    (logout (fun k => if k = "rememberMe" then some "true" else none)
        (.fail "Network Error")).store REMEMBER_ME
      = (fun k => if k = "rememberMe" then some "true" else none : Store)
          REMEMBER_ME :=
  ⟨by decide, by decide, by decide, by decide,
   logout_frame _ _ USER_EMAIL (by decide) (by decide),
   logout_frame _ _ REMEMBER_ME (by decide) (by decide)⟩

/-- While a refresh is in flight, a run of further fresh 401 arrivals only
appends the requests to failedQueue in order: no arrival initiates a refresh,
and the flag, the store and the default header are untouched. -/
theorem foldl_arrival_busy (reqs : List ReqConfig) :
    ∀ (st : InterceptorState) (k : Nat), st.isRefreshing = true →
      (∀ cfg ∈ reqs, cfg.retryFlag = false) →
      reqs.foldl arrival401Step (st, k)
        = ({ st with failedQueue := st.failedQueue ++ reqs }, k) := by
  induction reqs with
  | nil => intro st k _ _; simp
  | cons c rest ih =>
      intro st k hbusy hfresh
      have hc : c.retryFlag = false := hfresh c (by simp)
      have hrest : ∀ cfg ∈ rest, cfg.retryFlag = false :=
        fun cfg hm => hfresh cfg (by simp [hm])
      have hstep : arrival401Step (st, k) c
          = ({ st with failedQueue := st.failedQueue ++ [c] }, k) := by
        simp [arrival401Step, responseErrorHandler, err401, hc, hbusy,
          HandlerResult.isStart]
      rw [List.foldl_cons, hstep,
        ih { st with failedQueue := st.failedQueue ++ [c] } k hbusy hrest]
      simp

/-- Claim C1: for every sequence of logically-concurrent requests that each
receive a 401 while no refresh is in flight, exactly one refresh is initiated:
the first 401 observed with the flag idle sets the flag and starts the
refresh, and every further 401 observed with the flag set only appends a
pending waiter to the queue, in arrival order, and never starts a second
refresh. -/
theorem concurrent_401s_single_refresh (st : InterceptorState)
    (reqs : List ReqConfig) (hidle : st.isRefreshing = false)
    (hfresh : ∀ cfg ∈ reqs, cfg.retryFlag = false) (hne : reqs ≠ []) :
    (processConcurrent401s st reqs).2 = 1 ∧
    (processConcurrent401s st reqs).1.isRefreshing = true ∧
    (processConcurrent401s st reqs).1.failedQueue
      = st.failedQueue ++ reqs.tail := by
  match reqs, hne with
  | c :: rest, _ =>
      have hc : c.retryFlag = false := hfresh c (by simp)
      have hrest : ∀ cfg ∈ rest, cfg.retryFlag = false :=
        fun cfg hm => hfresh cfg (by simp [hm])
      have hstep : arrival401Step (st, 0) c
          = ({ st with isRefreshing := true },
             0 + (if true then 1 else 0)) := by
        simp [arrival401Step, responseErrorHandler, err401, hc, hidle,
          HandlerResult.isStart]
      have hbusy : ({ st with isRefreshing := true } :
          InterceptorState).isRefreshing = true := rfl
      unfold processConcurrent401s
      rw [List.foldl_cons, hstep]
      rw [foldl_arrival_busy rest { st with isRefreshing := true }
        (0 + (if true then 1 else 0)) hbusy hrest]
      simp

/-- The hypotheses of concurrent_401s_single_refresh hold for three concrete
fresh requests hitting an idle interceptor: one refresh initiation, flag set,
and the two later arrivals queued in order. -/
theorem concurrent_401s_single_refresh_witness :
    (processConcurrent401s
      { isRefreshing := false, failedQueue := [], store := fun _ => none,
        defaultAuth := none }
      [{ url := "/me", headers := none, retryFlag := false },
       { url := "/wallet", headers := none, retryFlag := false },
       { url := "/kyc", headers := none, retryFlag := false }]).2 = 1 ∧
    (processConcurrent401s
      { isRefreshing := false, failedQueue := [], store := fun _ => none,
        defaultAuth := none }
      [{ url := "/me", headers := none, retryFlag := false },
       { url := "/wallet", headers := none, retryFlag := false },
       { url := "/kyc", headers := none, retryFlag := false }]).1.isRefreshing
      = true ∧
    (processConcurrent401s
      { isRefreshing := false, failedQueue := [], store := fun _ => none,
        defaultAuth := none }
      [{ url := "/me", headers := none, retryFlag := false },
       { url := "/wallet", headers := none, retryFlag := false },
       { url := "/kyc", headers := none, retryFlag := false }]).1.failedQueue
      = [] ++ [{ url := "/me", headers := none, retryFlag := false },
               { url := "/wallet", headers := none, retryFlag := false },
               { url := "/kyc", headers := none, retryFlag := false }].tail :=
  concurrent_401s_single_refresh _ _ rfl
    (by intro cfg hm; fin_cases hm <;> rfl)
    (List.cons_ne_nil _ _)

end AuthService
